import Mathlib

/-!
Verification development for the Ouroboros desktop agent repository.

The Python sources are shallowly embedded: pure logic becomes Lean
functions, file-system and subprocess interaction becomes explicit
environment records and effect traces, and Python dictionaries become
association lists over `String` keys.  Source locations are cited next to
every definition.
-/

/-! ## Python string primitives

The Lean kernel cannot reduce the built-in `String.trim`, `String.toLower`
and `String.startsWith`, so the Python string methods used by the sources
are re-implemented over the character list of a string. -/

/-- Characters of `l` with whitespace stripped from both ends
(Python `str.strip()`). -/
def trimChars (l : List Char) : List Char :=
  ((l.dropWhile Char.isWhitespace).reverse.dropWhile Char.isWhitespace).reverse

/-- Python `str.strip()`. -/
def pyStrip (s : String) : String := String.mk (trimChars s.data)

/-- Python `str.lower()` (ASCII case folding; slash commands are ASCII). -/
def pyLower (s : String) : String := String.mk (s.data.map Char.toLower)

/-- Python `str.startswith(p)`. -/
def pyStartsWith (s p : String) : Bool := decide (s.data.take p.data.length = p.data)

/-- Split a character list at every character satisfying `p`; separators are
dropped and empty pieces are kept. -/
def splitWhen (p : Char → Bool) : List Char → List (List Char)
  | [] => [[]]
  | c :: cs =>
    match splitWhen p cs with
    | [] => [[]]
    | h :: t => if p c then [] :: h :: t else (c :: h) :: t

/-- Python `str.split()` with no argument: split on whitespace, dropping
empty pieces. -/
def pySplitWs (s : String) : List String :=
  ((splitWhen Char.isWhitespace s.data).filter (fun w => !w.isEmpty)).map String.mk

/-- Python `str.split(sep)` for a one-character separator. -/
def pySplitChar (s : String) (c : Char) : List String :=
  (splitWhen (fun x => x == c) s.data).map String.mk

/-! ## Association-list dictionaries

Python `dict`s (string keys, insertion ordered) are embedded as
association lists.  `alistInsert` is `d[k] = v` and `alistUpdate` is
`d.update(overlay)`. -/

/-- Python `d.get(k)`: the value stored under key `k` (dict keys are
unique, so the first occurrence is the value). -/
def alistLookup {α : Type} : List (String × α) → String → Option α
  | [], _ => none
  | e :: tl, k => if e.1 = k then some e.2 else alistLookup tl k

/-- Python `d[k] = v`: replace the value in place when the key exists,
keeping its position, else append the new entry at the end. -/
def alistInsert {α : Type} : List (String × α) → String → α → List (String × α)
  | [], k, v => [(k, v)]
  | e :: tl, k, v => if e.1 = k then (k, v) :: tl else e :: alistInsert tl k v

/-- Python `base.update(overlay)`. -/
def alistUpdate {α : Type} (base overlay : List (String × α)) : List (String × α) :=
  overlay.foldl (fun acc kv => alistInsert acc kv.1 kv.2) base

/-- Keys of the dictionary, in order. -/
def alistKeys {α : Type} (d : List (String × α)) : List String := d.map Prod.fst

/-- Option fallback: the first operand when it is `some`, else the second. -/
def optOr {α : Type} (a b : Option α) : Option α :=
  match a with
  | some v => some v
  | none => b

/-- Value of the last occurrence of key `k` (what sequential insertion of the
entries of `d` would leave under `k`). -/
def alistLookupLast {α : Type} : List (String × α) → String → Option α
  | [], _ => none
  | kv :: tl, k => optOr (alistLookupLast tl k) (if kv.1 = k then some kv.2 else none)

/-! ## Settings store (`src/ouroboros/config.py`) -/

/-- JSON value as stored in `settings.json`.  A JSON number is encoded
exactly as `mantissa / 10 ^ exp10` so that, e.g., the default
`TOTAL_BUDGET: 10.0` is `num 100 1` and `0.10` is `num 10 2`. -/
inductive JVal where
  | str (s : String)
  | num (mantissa : Int) (exp10 : Nat)
  | bool (b : Bool)
  deriving DecidableEq, Repr

/-- `SETTINGS_DEFAULTS` from `src/ouroboros/config.py` lines 44-75. -/
def SETTINGS_DEFAULTS : List (String × JVal) := [
  ("OPENROUTER_API_KEY", JVal.str ""),
  ("OPENAI_API_KEY", JVal.str ""),
  ("ANTHROPIC_API_KEY", JVal.str ""),
  ("OUROBOROS_MODEL", JVal.str "anthropic/claude-sonnet-4.6"),
  ("OUROBOROS_MODEL_CODE", JVal.str "anthropic/claude-sonnet-4.6"),
  ("OUROBOROS_MODEL_LIGHT", JVal.str "google/gemini-3-flash-preview"),
  ("OUROBOROS_MODEL_FALLBACK", JVal.str "google/gemini-3-flash-preview"),
  ("CLAUDE_CODE_MODEL", JVal.str "sonnet"),
  ("OUROBOROS_MAX_WORKERS", JVal.num 5 0),
  ("TOTAL_BUDGET", JVal.num 100 1),
  ("OUROBOROS_SOFT_TIMEOUT_SEC", JVal.num 600 0),
  ("OUROBOROS_HARD_TIMEOUT_SEC", JVal.num 1800 0),
  ("OUROBOROS_BG_MAX_ROUNDS", JVal.num 5 0),
  ("OUROBOROS_BG_WAKEUP_MIN", JVal.num 30 0),
  ("OUROBOROS_BG_WAKEUP_MAX", JVal.num 7200 0),
  ("OUROBOROS_EVO_COST_THRESHOLD", JVal.num 10 2),
  ("OUROBOROS_WEBSEARCH_MODEL", JVal.str "gpt-5.2"),
  ("GITHUB_TOKEN", JVal.str ""),
  ("GITHUB_REPO", JVal.str ""),
  ("LOCAL_MODEL_SOURCE", JVal.str ""),
  ("LOCAL_MODEL_FILENAME", JVal.str ""),
  ("LOCAL_MODEL_PORT", JVal.num 8766 0),
  ("LOCAL_MODEL_N_GPU_LAYERS", JVal.num 0 0),
  ("LOCAL_MODEL_CONTEXT_LENGTH", JVal.num 16384 0),
  ("LOCAL_MODEL_CHAT_FORMAT", JVal.str "chatml-function-calling"),
  ("USE_LOCAL_MAIN", JVal.bool false),
  ("USE_LOCAL_CODE", JVal.bool false),
  ("USE_LOCAL_LIGHT", JVal.bool false),
  ("USE_LOCAL_FALLBACK", JVal.bool false)]

/-- State of the on-disk `settings.json` as seen by `load_settings`:
missing, raising on parse, parsing to a non-dict JSON value, or a JSON
dictionary. -/
inductive StoredFile where
  | absent
  | unparseable
  | notDict
  | jdict (d : List (String × JVal))
  deriving DecidableEq, Repr

/-- `load_settings` from `src/ouroboros/config.py` lines 135-148: start from a
copy of the defaults and `update` with the parsed file when it parses to a
dict; any other file state leaves the defaults untouched. -/
def load_settings : StoredFile → List (String × JVal)
  | StoredFile.jdict d => alistUpdate SETTINGS_DEFAULTS d
  | _ => SETTINGS_DEFAULTS

/-- `save_settings` from `src/ouroboros/config.py` lines 151-162: the file
afterwards holds exactly the JSON dump of the given dictionary
(write-temp-then-rename; `json.dumps` followed by `json.loads` is the
identity on this dictionary model). -/
def save_settings (s : List (String × JVal)) : StoredFile := StoredFile.jdict s

/-! ## Settings API endpoint (`src/server.py` lines 545-551) -/

/-- The four secret keys masked by `api_settings_get`. -/
def SECRET_KEYS : List String :=
  ["OPENROUTER_API_KEY", "OPENAI_API_KEY", "ANTHROPIC_API_KEY", "GITHUB_TOKEN"]

/-- Masking of one secret value in `api_settings_get` (`src/server.py` lines
548-550): `if safe.get(key): safe[key] = safe[key][:8] + "..." if
len(safe[key]) > 8 else "***"`.  A falsy value (empty string, zero, False)
is left untouched; a truthy non-string value would raise `TypeError` in
`len`, which is encoded as `none`. -/
def maskSecretVal (v : JVal) : Option JVal :=
  match v with
  | JVal.str s =>
      if s = "" then some (JVal.str s)
      else some (JVal.str (if s.length > 8 then s.take 8 ++ "..." else "***"))
  | JVal.num m e => if m = 0 then some (JVal.num m e) else none
  | JVal.bool b => if b then none else some (JVal.bool b)

/-- Apply the secret masking to every entry of the settings dictionary.  The
source iterates the four keys over a dict with unique keys, which is the
same as this entrywise pass; `none` means the endpoint raised. -/
def mask_settings : List (String × JVal) → Option (List (String × JVal))
  | [] => some []
  | kv :: tl =>
    match (if SECRET_KEYS.contains kv.1 then maskSecretVal kv.2 else some kv.2) with
    | none => none
    | some v =>
      match mask_settings tl with
      | none => none
      | some rest => some ((kv.1, v) :: rest)

/-- `api_settings_get` from `src/server.py` lines 545-551: load the settings
and mask the secrets; the JSON response is the resulting dictionary. -/
def api_settings_get (stored : StoredFile) : Option (List (String × JVal)) :=
  mask_settings (load_settings stored)

/-! ## Git commit tools (`src/ouroboros/tools/git.py`) -/

/-- Git subcommands issued by the tools under `src/ouroboros/tools/git.py`
and `src/launcher.py`. -/
inductive GitCmd where
  | checkout (branch : String)
  | add (path : String)
  | addPaths (paths : List String)
  | addAll
  | commitCmd (message : String)
  | resetSoftHead1
  | statusPorcelain
  | lsFilesOthers
  deriving DecidableEq, Repr

/-- Observable side effects of one call of a repo commit tool, in order. -/
inductive ToolEffect where
  | lockAcquire
  | lockRelease
  | fileWrite (path content : String)
  | git (c : GitCmd)
  | gitignoreEnsure
  | unstageBinaries
  | logTestFailure
  deriving DecidableEq, Repr

/-- Environment of one repo commit tool call: outcomes of the external git
subprocesses, the pytest gate, and `ctx.branch_dev`. -/
structure GitEnv where
  branchDev : String
  checkoutOk : Bool
  writeOk : Bool
  addOk : Bool
  commitOk : Bool
  pathsOk : Bool
  statusOut : String
  untrackedOut : String
  testResult : Option String
  excText : String
  deriving Repr

/-- Result of one repo commit tool call: the returned string, the value of
the module-global `_consecutive_test_failures` afterwards, the effect
trace, and `ctx.last_push_succeeded`. -/
structure CommitOutcome where
  result : String
  failures : Nat
  effects : List ToolEffect
  lastPushSucceeded : Bool
  deriving DecidableEq, Repr

/-- Error string built by `_git_commit_with_tests`
(`src/ouroboros/tools/git.py` line 158). -/
def TESTS_FAILED_MSG (testOutput : String) : String :=
  "⚠️ TESTS_FAILED: Tests failed, commit blocked.\n" ++ testOutput ++
    "\nFix tests and commit manually."

/-- `_git_commit_with_tests` (`src/ouroboros/tools/git.py` lines 152-159):
`none` when the pytest gate passes, the error string when it fails. -/
def git_commit_with_tests (testResult : Option String) : Option String :=
  testResult.map TESTS_FAILED_MSG

/-- Success message of the commit tools. -/
def OK_COMMITTED (branchDev commitMessage : String) : String :=
  "OK: committed to " ++ branchDev ++ ": " ++ commitMessage

/-- Note appended when the third consecutive test failure lets the commit
stand (`src/ouroboros/tools/git.py` lines 196 and 255). -/
def TESTS_SKIPPED_NOTE : String :=
  "\n\n[TESTS_SKIPPED: 3 consecutive failures. Tests are likely broken, please fix them.]"

/-- Rejection string for a blank commit message
(`src/ouroboros/tools/git.py` lines 168 and 212). -/
def EMPTY_MESSAGE_ERROR : String := "⚠️ ERROR: commit_message must be non-empty."

/-- Warning appended by `_repo_commit_push` when untracked files remain after
a commit with explicit paths (`src/ouroboros/tools/git.py` lines 256-264 and
275-283); empty when `git ls-files --others` reports nothing. -/
def untracked_warning (untrackedOut : String) : String :=
  if pyStrip untrackedOut = "" then ""
  else "\n⚠️ WARNING: untracked files remain: " ++
    String.intercalate ", " (pySplitChar (pyStrip untrackedOut) '\n') ++
    " — they are NOT in git. Use repo_commit without paths to add everything."

/-- `_repo_write_commit` (`src/ouroboros/tools/git.py` lines 164-205).
`failures` is the value of `_consecutive_test_failures` on entry. -/
def repo_write_commit (env : GitEnv) (path content commitMessage : String)
    (skipTests : Bool) (failures : Nat) : CommitOutcome :=
  if pyStrip commitMessage = "" then
    { result := EMPTY_MESSAGE_ERROR, failures := failures, effects := [],
      lastPushSucceeded := false }
  else if !env.checkoutOk then
    { result := "⚠️ GIT_ERROR (checkout): " ++ env.excText, failures := failures,
      effects := [ToolEffect.lockAcquire, ToolEffect.git (GitCmd.checkout env.branchDev),
                  ToolEffect.lockRelease],
      lastPushSucceeded := false }
  else if !env.writeOk then
    { result := "⚠️ FILE_WRITE_ERROR: " ++ env.excText, failures := failures,
      effects := [ToolEffect.lockAcquire, ToolEffect.git (GitCmd.checkout env.branchDev),
                  ToolEffect.lockRelease],
      lastPushSucceeded := false }
  else if !env.addOk then
    { result := "⚠️ GIT_ERROR (add): " ++ env.excText, failures := failures,
      effects := [ToolEffect.lockAcquire, ToolEffect.git (GitCmd.checkout env.branchDev),
                  ToolEffect.fileWrite path content, ToolEffect.lockRelease],
      lastPushSucceeded := false }
  else if !env.commitOk then
    { result := "⚠️ GIT_ERROR (commit): " ++ env.excText, failures := failures,
      effects := [ToolEffect.lockAcquire, ToolEffect.git (GitCmd.checkout env.branchDev),
                  ToolEffect.fileWrite path content, ToolEffect.git (GitCmd.add path),
                  ToolEffect.lockRelease],
      lastPushSucceeded := false }
  else
    let base := [ToolEffect.lockAcquire, ToolEffect.git (GitCmd.checkout env.branchDev),
                 ToolEffect.fileWrite path content, ToolEffect.git (GitCmd.add path),
                 ToolEffect.git (GitCmd.commitCmd commitMessage)]
    if skipTests then
      { result := OK_COMMITTED env.branchDev commitMessage, failures := 0,
        effects := base ++ [ToolEffect.lockRelease], lastPushSucceeded := true }
    else
      match git_commit_with_tests env.testResult with
      | some pushError =>
        if failures + 1 ≥ 3 then
          { result := OK_COMMITTED env.branchDev commitMessage ++ TESTS_SKIPPED_NOTE,
            failures := 0,
            effects := base ++ [ToolEffect.logTestFailure, ToolEffect.lockRelease],
            lastPushSucceeded := true }
        else
          { result := pushError, failures := failures + 1,
            effects := base ++ [ToolEffect.logTestFailure,
                                ToolEffect.git GitCmd.resetSoftHead1, ToolEffect.lockRelease],
            lastPushSucceeded := false }
      | none =>
        { result := OK_COMMITTED env.branchDev commitMessage, failures := 0,
          effects := base ++ [ToolEffect.lockRelease], lastPushSucceeded := true }

/-- `_repo_commit_push` (`src/ouroboros/tools/git.py` lines 208-284), the
implementation of the `repo_commit` tool.  `paths = none` models the
argument left out; `some ps` a given list (`if paths:` is false for both
`none` and the empty list).  `safe_relpath` is modelled as the identity on
paths when `env.pathsOk` and as raising otherwise. -/
def repo_commit_push (env : GitEnv) (commitMessage : String)
    (paths : Option (List String)) (skipTests : Bool) (failures : Nat) : CommitOutcome :=
  if pyStrip commitMessage = "" then
    { result := EMPTY_MESSAGE_ERROR, failures := failures, effects := [],
      lastPushSucceeded := false }
  else if !env.checkoutOk then
    { result := "⚠️ GIT_ERROR (checkout): " ++ env.excText, failures := failures,
      effects := [ToolEffect.lockAcquire, ToolEffect.git (GitCmd.checkout env.branchDev),
                  ToolEffect.lockRelease],
      lastPushSucceeded := false }
  else
    let usePaths : Bool := match paths with | some ps => !ps.isEmpty | none => false
    let safePaths : List String :=
      (paths.getD []).filter (fun p => !(pyStrip p == ""))
    if usePaths && !env.pathsOk then
      { result := "⚠️ PATH_ERROR: " ++ env.excText, failures := failures,
        effects := [ToolEffect.lockAcquire, ToolEffect.git (GitCmd.checkout env.branchDev),
                    ToolEffect.lockRelease],
        lastPushSucceeded := false }
    else if !env.addOk then
      { result := "⚠️ GIT_ERROR (add): " ++ env.excText, failures := failures,
        effects := [ToolEffect.lockAcquire, ToolEffect.git (GitCmd.checkout env.branchDev)] ++
          (if usePaths then [] else [ToolEffect.gitignoreEnsure]) ++ [ToolEffect.lockRelease],
        lastPushSucceeded := false }
    else
      let addPart : List ToolEffect :=
        if usePaths then [ToolEffect.git (GitCmd.addPaths safePaths)]
        else [ToolEffect.gitignoreEnsure, ToolEffect.git GitCmd.addAll,
              ToolEffect.unstageBinaries]
      let base := [ToolEffect.lockAcquire, ToolEffect.git (GitCmd.checkout env.branchDev)] ++
        addPart ++ [ToolEffect.git GitCmd.statusPorcelain]
      if pyStrip env.statusOut = "" then
        { result := "⚠️ GIT_NO_CHANGES: nothing to commit.", failures := failures,
          effects := base ++ [ToolEffect.lockRelease], lastPushSucceeded := false }
      else if !env.commitOk then
        { result := "⚠️ GIT_ERROR (commit): " ++ env.excText, failures := failures,
          effects := base ++ [ToolEffect.lockRelease], lastPushSucceeded := false }
      else
        let committed := base ++ [ToolEffect.git (GitCmd.commitCmd commitMessage)]
        let warnTail : String :=
          if paths.isSome then untracked_warning env.untrackedOut else ""
        let warnEffs : List ToolEffect :=
          if paths.isSome then [ToolEffect.git GitCmd.lsFilesOthers] else []
        if skipTests then
          { result := OK_COMMITTED env.branchDev commitMessage ++ warnTail, failures := 0,
            effects := committed ++ [ToolEffect.lockRelease] ++ warnEffs,
            lastPushSucceeded := true }
        else
          match git_commit_with_tests env.testResult with
          | some pushError =>
            if failures + 1 ≥ 3 then
              { result := OK_COMMITTED env.branchDev commitMessage ++ TESTS_SKIPPED_NOTE ++
                  warnTail,
                failures := 0,
                effects := committed ++ [ToolEffect.logTestFailure] ++ warnEffs ++
                  [ToolEffect.lockRelease],
                lastPushSucceeded := true }
            else
              { result := pushError, failures := failures + 1,
                effects := committed ++ [ToolEffect.logTestFailure,
                  ToolEffect.git GitCmd.resetSoftHead1, ToolEffect.lockRelease],
                lastPushSucceeded := false }
          | none =>
            { result := OK_COMMITTED env.branchDev commitMessage ++ warnTail, failures := 0,
              effects := committed ++ [ToolEffect.lockRelease] ++ warnEffs,
              lastPushSucceeded := true }

/-! ## Launcher: protected-file sync and lifecycle (`src/launcher.py`) -/

/-- The fixed set of protected files synced on every launch
(`src/launcher.py` lines 108-112 and 125). -/
def SYNC_PATHS : List String :=
  ["ouroboros/safety.py", "prompts/SAFETY.md", "ouroboros/tools/registry.py"]

/-- Commit message used by `_commit_synced_files`
(`src/launcher.py` lines 133-134). -/
def SAFETY_SYNC_MESSAGE : String := "safety-sync: restore protected files from bundle"

/-- `_sync_core_files` (`src/launcher.py` lines 104-119): copy each protected
file that exists in the immutable bundle over the working tree.  File trees
are path-to-content dictionaries. -/
def sync_core_files (bundle tree : List (String × String)) : List (String × String) :=
  SYNC_PATHS.foldl (fun acc rel =>
    match alistLookup bundle rel with
    | some content => alistInsert acc rel content
    | none => acc) tree

/-- `_commit_synced_files` (`src/launcher.py` lines 122-138): `git add` each
protected file, check `git status --porcelain` restricted to them, and
commit with `SAFETY_SYNC_MESSAGE` exactly when the status output is
non-empty.  `statusOut` is the status output observed from git. -/
def commit_synced_files (statusOut : String) : List GitCmd :=
  SYNC_PATHS.map GitCmd.add ++ [GitCmd.statusPorcelain] ++
    (if pyStrip statusOut = "" then [] else [GitCmd.commitCmd SAFETY_SYNC_MESSAGE])

/-- Outcome of `bootstrap_repo` on the existing-repository path: the working
tree after the sync and the git commands issued by the commit step. -/
structure BootstrapOutcome where
  tree : List (String × String)
  gitCmds : List GitCmd
  deriving DecidableEq, Repr

/-- `bootstrap_repo` (`src/launcher.py` lines 190-196): when `REPO_DIR`
exists and contains `server.py`, it only syncs the protected files and
commits them if drifted.  The first-run full bootstrap (the `none` case) is
outside the claims and not modelled further. -/
def bootstrap_repo (repoExists serverPyExists : Bool)
    (bundle tree : List (String × String)) (statusOut : String) :
    Option BootstrapOutcome :=
  if repoExists && serverPyExists then
    some { tree := sync_core_files bundle tree, gitCmds := commit_synced_files statusOut }
  else none

/-- Exit code 42, `RESTART_EXIT_CODE` in `src/server.py` line 59 and
`src/ouroboros/config.py` line 36. -/
def RESTART_EXIT_CODE : Nat := 42

/-- Exit code 99, `PANIC_EXIT_CODE` in `src/server.py` line 60 and
`src/ouroboros/config.py` line 37. -/
def PANIC_EXIT_CODE : Nat := 99

/-- `MAX_CRASH_RESTARTS` from `src/launcher.py` line 37. -/
def MAX_CRASH_RESTARTS : Nat := 5

/-- Steps observable in the launcher lifecycle loop. -/
inductive LifeEvent where
  | start
  | exited (code : Int)
  | shutdown
  deriving DecidableEq, Repr

/-- `agent_lifecycle_loop` (`src/launcher.py` lines 507-578) as a trace over
a script of agent exit codes: each iteration starts the agent and waits for
its exit; code 99 shuts the launcher down with no further start, code 42
restarts after re-syncing, and any other code counts as a crash (the 120s
crash-window pruning is not modelled: the script stands for crashes inside
one window, the worst case for restarting).  The external shutdown event is
taken as never set. -/
def agent_lifecycle_run : List Int → Nat → List LifeEvent
  | [], _ => [LifeEvent.start]
  | code :: rest, crashes =>
    LifeEvent.start :: LifeEvent.exited code ::
      (if code = 99 then [LifeEvent.shutdown]
       else if code = 42 then agent_lifecycle_run rest crashes
       else if crashes + 1 ≥ MAX_CRASH_RESTARTS then [LifeEvent.shutdown]
       else agent_lifecycle_run rest (crashes + 1))

/-! ## Supervisor loop (`src/server.py`) -/

/-- `src/server.py` lines 913-934: after `server.run()` returns, the process
hard-exits with `RESTART_EXIT_CODE` exactly when the restart flag was set;
otherwise the interpreter exits normally (`none`). -/
def serverExitCode (restartRequested : Bool) : Option Nat :=
  if restartRequested then some RESTART_EXIT_CODE else none

/-- The durable supervisor state fields touched by the owner commands
(`supervisor/state.py` is not under `src/`; the fields follow the spec's
state-snapshot data model and the reads/writes visible in `src/server.py`). -/
structure SupervisorState where
  sessionId : String
  tgOffset : Int
  evolutionModeEnabled : Bool
  evolutionConsecutiveFailures : Nat
  bgConsciousnessEnabled : Bool
  deriving DecidableEq, Repr

/-- A queued task as the supervisor loop sees it; `taskType` models
`t.get("type")`.  `priority` and `enqueuedAt` carry the sort key of the
spec's pending-list ordering. -/
structure QTask where
  id : String
  taskType : String
  priority : Int
  enqueuedAt : Int
  deriving DecidableEq, Repr

/-- Modelled from the spec: `sort_pending` from `supervisor/queue.py` (not
under `src/`) keeps the pending list sorted by
`(priority ASC, enqueued_at ASC)`. -/
def sort_pending (pending : List QTask) : List QTask :=
  pending.mergeSort (fun a b =>
    decide (a.priority < b.priority ∨ (a.priority = b.priority ∧ a.enqueuedAt ≤ b.enqueuedAt)))

/-- Modelled from the spec: the state effect of a successful soft restart
(`safe_restart` in `supervisor/git_ops.py` together with
`supervisor/state.py`, neither under `src/`): the state file's `session_id`
is regenerated to the fresh value and every other field, in particular
`tg_offset`, is preserved. -/
def softRestartState (freshSessionId : String) (st : SupervisorState) : SupervisorState :=
  { st with sessionId := freshSessionId }

/-- `/evolve` handling from `src/server.py` lines 311-325: `turn_on` unless
the argument is `off`, `stop` or `0`; disabling filters every `evolution`
task out of the pending list and re-sorts it. -/
def evolve_command (action : String) (st : SupervisorState) (pending : List QTask) :
    SupervisorState × List QTask :=
  let turnOn : Bool := !(action == "off" || action == "stop" || action == "0")
  let st2 :=
    if turnOn then
      { st with evolutionModeEnabled := true, evolutionConsecutiveFailures := 0 }
    else { st with evolutionModeEnabled := false }
  let pending2 :=
    if turnOn then pending
    else sort_pending (pending.filter (fun t => t.taskType != "evolution"))
  (st2, pending2)

/-- Environment of one owner-message dispatch: outcomes of the external
collaborators (`safe_restart`, the consciousness module, `status_text`) and
the fresh session id a successful soft restart writes. -/
structure SupervisorEnv where
  safeRestartOk : Bool
  safeRestartMsg : String
  freshSessionId : String
  statusText : String
  bgResult : String
  bgRunning : Bool
  deriving Repr

/-- Observable outcome of dispatching one owner message in the supervisor
loop (`src/server.py` lines 297-358). -/
structure HandleResult where
  sent : List String
  state : SupervisorState
  pending : List QTask
  restartRequested : Bool
  hardExit : Option Nat
  workersKilled : Bool
  reviewQueued : Bool
  panicFlagWritten : Bool
  snapshotPersisted : Bool
  chatDispatched : Bool
  deriving Repr

/-- Message sent by the `/panic` branch (`src/server.py` line 299). -/
def PANIC_MESSAGE : String := "🛑 PANIC: killing everything. App will close."

/-- Owner-command dispatch of the supervisor loop, `src/server.py` lines
297-358, starting from `lowered = text.strip().lower()`.  The `/panic`
branch is `_execute_panic_stop` (lines 400-449): flags cleared, panic flag
written, workers killed, hard exit 99.  The `/restart` branch gates on
`safe_restart` and, when it succeeds, kills workers and requests the
restart exit; the state effect of the successful soft restart is
`softRestartState`. -/
def handle_owner_message (env : SupervisorEnv) (st : SupervisorState)
    (pending : List QTask) (text : String) : HandleResult :=
  let lowered := pyLower (pyStrip text)
  if pyStartsWith lowered "/panic" then
    { sent := [PANIC_MESSAGE],
      state := { st with evolutionModeEnabled := false, bgConsciousnessEnabled := false },
      pending := pending, restartRequested := false, hardExit := some PANIC_EXIT_CODE,
      workersKilled := true, reviewQueued := false, panicFlagWritten := true,
      snapshotPersisted := false, chatDispatched := false }
  else if pyStartsWith lowered "/restart" then
    if env.safeRestartOk then
      { sent := ["♻️ Restarting (soft)."], state := softRestartState env.freshSessionId st,
        pending := pending, restartRequested := true, hardExit := none,
        workersKilled := true, reviewQueued := false, panicFlagWritten := false,
        snapshotPersisted := false, chatDispatched := false }
    else
      { sent := ["♻️ Restarting (soft).", "⚠️ Restart cancelled: " ++ env.safeRestartMsg],
        state := st, pending := pending, restartRequested := false, hardExit := none,
        workersKilled := false, reviewQueued := false, panicFlagWritten := false,
        snapshotPersisted := false, chatDispatched := false }
  else if pyStartsWith lowered "/review" then
    { sent := [], state := st, pending := pending, restartRequested := false,
      hardExit := none, workersKilled := false, reviewQueued := true,
      panicFlagWritten := false, snapshotPersisted := false, chatDispatched := false }
  else if pyStartsWith lowered "/evolve" then
    let parts := pySplitWs lowered
    let action := (parts.drop 1).headD "on"
    let turnOn : Bool := !(action == "off" || action == "stop" || action == "0")
    let r := evolve_command action st pending
    { sent := ["🧬 Evolution: " ++ (if turnOn then "ON" else "OFF")],
      state := r.1, pending := r.2, restartRequested := false, hardExit := none,
      workersKilled := false, reviewQueued := false, panicFlagWritten := false,
      snapshotPersisted := !turnOn, chatDispatched := false }
  else if pyStartsWith lowered "/bg" then
    let parts := pySplitWs lowered
    let action := (parts.drop 1).headD "status"
    if action == "start" || action == "on" || action == "1" then
      { sent := ["🧠 " ++ env.bgResult],
        state := { st with bgConsciousnessEnabled := true }, pending := pending,
        restartRequested := false, hardExit := none, workersKilled := false,
        reviewQueued := false, panicFlagWritten := false, snapshotPersisted := false,
        chatDispatched := false }
    else if action == "stop" || action == "off" || action == "0" then
      { sent := ["🧠 " ++ env.bgResult],
        state := { st with bgConsciousnessEnabled := false }, pending := pending,
        restartRequested := false, hardExit := none, workersKilled := false,
        reviewQueued := false, panicFlagWritten := false, snapshotPersisted := false,
        chatDispatched := false }
    else
      { sent := ["🧠 Background consciousness: " ++
          (if env.bgRunning then "running" else "stopped")],
        state := st, pending := pending, restartRequested := false, hardExit := none,
        workersKilled := false, reviewQueued := false, panicFlagWritten := false,
        snapshotPersisted := false, chatDispatched := false }
  else if pyStartsWith lowered "/status" then
    { sent := [env.statusText], state := st, pending := pending,
      restartRequested := false, hardExit := none, workersKilled := false,
      reviewQueued := false, panicFlagWritten := false, snapshotPersisted := false,
      chatDispatched := false }
  else
    { sent := [], state := st, pending := pending, restartRequested := false,
      hardExit := none, workersKilled := false, reviewQueued := false,
      panicFlagWritten := false, snapshotPersisted := false, chatDispatched := true }

/-- One scripted outcome of the supervisor loop body: it either completes
normally or raises. -/
inductive LoopStep where
  | ok
  | crash
  deriving DecidableEq, Repr

/-- State of the crash-retry wrapper around the supervisor loop body
(`src/server.py` lines 248-369): the consecutive crash counter, the backoff
sleeps performed so far (in seconds), whether the loop function returned
after exhausting retries, and whether anything set the restart flag. -/
structure SupervisorLoopState where
  crashCount : Nat
  backoffs : List Nat
  terminated : Bool
  restartRequested : Bool
  deriving DecidableEq, Repr

/-- One iteration of the crash-retry wrapper (`src/server.py` lines 250 and
363-369): a normal body resets the counter; an exception increments it,
and either ends the loop function (counter at 3) or sleeps
`min(30, 2 ** crash_count)` seconds and retries. -/
def supervisor_loop_iter (s : SupervisorLoopState) (step : LoopStep) : SupervisorLoopState :=
  if s.terminated then s
  else
    match step with
    | LoopStep.ok => { s with crashCount := 0 }
    | LoopStep.crash =>
      if s.crashCount + 1 ≥ 3 then
        { s with crashCount := s.crashCount + 1, terminated := true }
      else
        { s with crashCount := s.crashCount + 1,
                 backoffs := s.backoffs ++ [min 30 (2 ^ (s.crashCount + 1))] }

/-- Run the crash-retry wrapper over a script of body outcomes, starting
from a fresh loop (`crash_count = 0`, restart flag clear). -/
def supervisor_loop_run (steps : List LoopStep) : SupervisorLoopState :=
  steps.foldl supervisor_loop_iter
    { crashCount := 0, backoffs := [], terminated := false, restartRequested := false }
/-! ## Relation for the C10 noninterference statement (specification side) -/

/-- Specification-side relation on dictionary values under one key: the
values are equal, except that under a secret key both may be strings that
agree on their first 8 characters and are both longer than 8 characters
(they differ only in the suffix). -/
def SecretSuffixRelated (k : String) (v1 v2 : JVal) : Prop :=
  if SECRET_KEYS.contains k then
    v1 = v2 ∨ (∃ s1 s2 : String, v1 = JVal.str s1 ∧ v2 = JVal.str s2 ∧
      s1.take 8 = s2.take 8 ∧ s1.length > 8 ∧ s2.length > 8)
  else v1 = v2

/-- Specification-side relation on dictionary entries: same key, values
related by `SecretSuffixRelated`. -/
def EntryRelated (a b : String × JVal) : Prop :=
  a.1 = b.1 ∧ SecretSuffixRelated a.1 a.2 b.2

/-! ## Dictionary lemmas -/

theorem alistLookup_insert {α : Type} (d : List (String × α)) (q : String) (v : α)
    (k : String) :
    alistLookup (alistInsert d q v) k = if k = q then some v else alistLookup d k := by
  induction d with
  | nil =>
    by_cases hkq : k = q
    · subst hkq; simp [alistInsert, alistLookup]
    · have hqk : ¬ q = k := fun h => hkq h.symm
      simp [alistInsert, alistLookup, hkq, hqk]
  | cons e tl ih =>
    by_cases heq : e.1 = q
    · by_cases hkq : k = q
      · subst hkq; simp [alistInsert, alistLookup, heq]
      · have hqk : ¬ q = k := fun h => hkq h.symm
        have hek : ¬ e.1 = k := fun h => hkq ((heq.symm.trans h).symm)
        simp [alistInsert, alistLookup, heq, hqk, hkq, hek]
    · by_cases hek : e.1 = k
      · have hkq : ¬ k = q := fun h => heq (hek.trans h)
        simp [alistInsert, alistLookup, heq, hek, hkq]
      · simp [alistInsert, alistLookup, heq, hek, ih]

theorem alistUpdate_nil {α : Type} (base : List (String × α)) :
    alistUpdate base [] = base := rfl

theorem alistUpdate_cons {α : Type} (base : List (String × α)) (kv : String × α)
    (tl : List (String × α)) :
    alistUpdate base (kv :: tl) = alistUpdate (alistInsert base kv.1 kv.2) tl := rfl

theorem alistLookup_update {α : Type} (overlay : List (String × α)) :
    ∀ (base : List (String × α)) (k : String),
      alistLookup (alistUpdate base overlay) k =
        optOr (alistLookupLast overlay k) (alistLookup base k) := by
  induction overlay with
  | nil => intro base k; simp [alistUpdate_nil, alistLookupLast, optOr]
  | cons kv tl ih =>
    intro base k
    rw [alistUpdate_cons, ih, alistLookup_insert]
    cases hlast : alistLookupLast tl k with
    | some w => simp [alistLookupLast, hlast, optOr]
    | none =>
      by_cases hk : kv.1 = k
      · simp [alistLookupLast, hlast, optOr, hk]
      · have hk' : ¬ k = kv.1 := fun he => hk he.symm
        simp [alistLookupLast, hlast, optOr, hk, hk']

theorem alistLookup_none_of_not_mem {α : Type} (d : List (String × α)) (k : String)
    (h : ¬ k ∈ alistKeys d) : alistLookup d k = none := by
  induction d with
  | nil => rfl
  | cons e tl ih =>
    simp only [alistKeys, List.map_cons, List.mem_cons] at h
    push_neg at h
    have hek : ¬ e.1 = k := fun he => h.1 he.symm
    simp only [alistLookup, hek, if_false]
    exact ih (by simpa [alistKeys] using h.2)

theorem alistLookupLast_none_of_not_mem {α : Type} (d : List (String × α)) (k : String)
    (h : ¬ k ∈ alistKeys d) : alistLookupLast d k = none := by
  induction d with
  | nil => rfl
  | cons e tl ih =>
    simp only [alistKeys, List.map_cons, List.mem_cons] at h
    push_neg at h
    have hek : ¬ e.1 = k := fun he => h.1 he.symm
    have htl := ih (by simpa [alistKeys] using h.2)
    simp [alistLookupLast, htl, hek, optOr]

theorem alistLookupLast_eq_of_nodup {α : Type} (d : List (String × α))
    (h : (alistKeys d).Nodup) (k : String) :
    alistLookupLast d k = alistLookup d k := by
  induction d with
  | nil => rfl
  | cons e tl ih =>
    simp only [alistKeys, List.map_cons, List.nodup_cons] at h
    by_cases hek : e.1 = k
    · have hnm : ¬ k ∈ alistKeys tl := by
        intro hm; exact h.1 (hek ▸ hm)
      have h1 := alistLookupLast_none_of_not_mem tl k hnm
      have h2 := alistLookup_none_of_not_mem tl k hnm
      simp [alistLookupLast, alistLookup, hek, h1, h2, optOr]
    · have htl := ih (by simpa [alistKeys] using h.2)
      simp only [alistLookupLast, alistLookup, hek, htl, if_false, optOr]
      cases alistLookup tl k <;> rfl

theorem mem_alistKeys_insert {α : Type} (d : List (String × α)) (q : String) (v : α)
    (k : String) :
    k ∈ alistKeys (alistInsert d q v) ↔ k ∈ alistKeys d ∨ k = q := by
  induction d with
  | nil => simp [alistInsert, alistKeys]
  | cons e tl ih =>
    by_cases heq : e.1 = q
    · subst heq
      have he : alistInsert (e :: tl) e.1 v = (e.1, v) :: tl := by simp [alistInsert]
      rw [he]
      simp only [alistKeys, List.map_cons, List.mem_cons]
      tauto
    · have he : alistInsert (e :: tl) q v = e :: alistInsert tl q v := by
        simp [alistInsert, heq]
      rw [he]
      have h1 : alistKeys (e :: alistInsert tl q v) = e.1 :: alistKeys (alistInsert tl q v) := rfl
      have h2 : alistKeys (e :: tl) = e.1 :: alistKeys tl := rfl
      rw [h1, h2]
      simp only [List.mem_cons]
      rw [ih]
      tauto

theorem alistKeys_insert_nodup {α : Type} (d : List (String × α)) (q : String) (v : α)
    (h : (alistKeys d).Nodup) : (alistKeys (alistInsert d q v)).Nodup := by
  induction d with
  | nil => simp [alistInsert, alistKeys]
  | cons e tl ih =>
    simp only [alistKeys, List.map_cons, List.nodup_cons] at h
    by_cases heq : e.1 = q
    · subst heq
      have he : alistInsert (e :: tl) e.1 v = (e.1, v) :: tl := by simp [alistInsert]
      rw [he]
      simp only [alistKeys, List.map_cons, List.nodup_cons]
      exact ⟨h.1, h.2⟩
    · have he : alistInsert (e :: tl) q v = e :: alistInsert tl q v := by
        simp [alistInsert, heq]
      rw [he]
      simp only [alistKeys, List.map_cons, List.nodup_cons]
      refine ⟨?_, ih h.2⟩
      intro hm
      rcases (mem_alistKeys_insert tl q v e.1).mp hm with hm2 | hm2
      · exact h.1 hm2
      · exact heq hm2

theorem alistKeys_update_nodup {α : Type} (overlay : List (String × α)) :
    ∀ (base : List (String × α)), (alistKeys base).Nodup →
      (alistKeys (alistUpdate base overlay)).Nodup := by
  induction overlay with
  | nil => intro base h; exact h
  | cons kv tl ih =>
    intro base h
    rw [alistUpdate_cons]
    exact ih _ (alistKeys_insert_nodup base kv.1 kv.2 h)

theorem settings_defaults_nodup : (alistKeys SETTINGS_DEFAULTS).Nodup := by decide

/-! ## Claims C7 and C8: the settings store -/

theorem load_settings_superset (f : StoredFile) (k : String)
    (h : (alistLookup SETTINGS_DEFAULTS k).isSome = true) :
    (alistLookup (load_settings f) k).isSome = true := by
  cases f with
  | jdict d =>
    rw [load_settings, alistLookup_update]
    cases alistLookupLast d k <;> simp [optOr, h]
  | absent => exact h
  | unparseable => exact h
  | notDict => exact h

theorem load_settings_nodup (f : StoredFile) :
    (alistKeys (load_settings f)).Nodup := by
  cases f with
  | jdict d => exact alistKeys_update_nodup d SETTINGS_DEFAULTS settings_defaults_nodup
  | absent => exact settings_defaults_nodup
  | unparseable => exact settings_defaults_nodup
  | notDict => exact settings_defaults_nodup

theorem load_settings_defaults_none (f : StoredFile) (k : String)
    (h : alistLookup (load_settings f) k = none) :
    alistLookup SETTINGS_DEFAULTS k = none := by
  cases f with
  | jdict d =>
    rw [load_settings, alistLookup_update] at h
    cases hl : alistLookupLast d k <;> rw [hl] at h
    · exact h
    · exact absurd h (by simp [optOr])
  | absent => exact h
  | unparseable => exact h
  | notDict => exact h

/-- C7: when the settings file does not exist, or holds unparseable or
non-dict JSON, `load_settings` returns exactly the defaults dictionary (the
function is total, so no error is raised), and on every call every key of
`SETTINGS_DEFAULTS` is present in the returned dictionary. -/
theorem C7_load_settings_missing_is_defaults :
    (load_settings StoredFile.absent = SETTINGS_DEFAULTS ∧
     load_settings StoredFile.unparseable = SETTINGS_DEFAULTS ∧
     load_settings StoredFile.notDict = SETTINGS_DEFAULTS) ∧
    ∀ (f : StoredFile) (k : String),
      (alistLookup SETTINGS_DEFAULTS k).isSome = true →
      (alistLookup (load_settings f) k).isSome = true := by
  exact ⟨⟨rfl, rfl, rfl⟩, load_settings_superset⟩

/-- Witness for C7 at a concrete stored file and key. -/
theorem C7_load_settings_missing_is_defaults_witness :
    (alistLookup SETTINGS_DEFAULTS "TOTAL_BUDGET").isSome = true ∧
    (alistLookup (load_settings (StoredFile.jdict [("OPENROUTER_API_KEY", JVal.str "sk-or-v1-test")]))
      "TOTAL_BUDGET").isSome = true :=
  ⟨by decide,
   C7_load_settings_missing_is_defaults.2
     (StoredFile.jdict [("OPENROUTER_API_KEY", JVal.str "sk-or-v1-test")])
     "TOTAL_BUDGET" (by decide)⟩

theorem lookup_update_defaults_self (u : List (String × JVal))
    (hu : (alistKeys u).Nodup)
    (hsup : ∀ k, alistLookup u k = none → alistLookup SETTINGS_DEFAULTS k = none)
    (k : String) :
    alistLookup (alistUpdate SETTINGS_DEFAULTS u) k = alistLookup u k := by
  rw [alistLookup_update, alistLookupLast_eq_of_nodup u hu]
  cases h : alistLookup u k with
  | some w => simp [optOr]
  | none => simp [optOr, hsup k h]

/-- C8: the settings store round-trips: saving `s` and loading returns the
defaults dictionary merged with `s` (dictionaries compared as Python
compares them, by key lookup), and `save_settings (load_settings f)`
followed by `load_settings` is a fixed point. -/
theorem C8_settings_roundtrip :
    ∀ (s : List (String × JVal)) (f : StoredFile) (k : String),
      alistLookup (load_settings (save_settings s)) k =
        alistLookup (alistUpdate SETTINGS_DEFAULTS s) k ∧
      alistLookup (load_settings (save_settings (load_settings f))) k =
        alistLookup (load_settings f) k := by
  intro s f k
  refine ⟨rfl, ?_⟩
  exact lookup_update_defaults_self (load_settings f) (load_settings_nodup f)
    (load_settings_defaults_none f) k

/-! ## Claim C10: secret masking in the settings endpoint -/

theorem EntryRelated_refl (a : String × JVal) : EntryRelated a a := by
  refine ⟨rfl, ?_⟩
  unfold SecretSuffixRelated
  split
  · exact Or.inl rfl
  · rfl

theorem related_insert (q : String) (v1 v2 : JVal)
    (hv : SecretSuffixRelated q v1 v2) :
    ∀ (b1 b2 : List (String × JVal)), List.Forall₂ EntryRelated b1 b2 →
      List.Forall₂ EntryRelated (alistInsert b1 q v1) (alistInsert b2 q v2) := by
  intro b1 b2 h
  induction h with
  | nil => exact List.Forall₂.cons ⟨rfl, hv⟩ List.Forall₂.nil
  | @cons a b l1 l2 hab htl ih =>
    by_cases haq : a.1 = q
    · have hbq : b.1 = q := hab.1 ▸ haq
      have e1 : alistInsert (a :: l1) q v1 = (q, v1) :: l1 := by simp [alistInsert, haq]
      have e2 : alistInsert (b :: l2) q v2 = (q, v2) :: l2 := by simp [alistInsert, hbq]
      rw [e1, e2]
      exact List.Forall₂.cons ⟨rfl, hv⟩ htl
    · have hbq : ¬ b.1 = q := fun hh => haq (hab.1.symm ▸ hh)
      have e1 : alistInsert (a :: l1) q v1 = a :: alistInsert l1 q v1 := by
        simp [alistInsert, haq]
      have e2 : alistInsert (b :: l2) q v2 = b :: alistInsert l2 q v2 := by
        simp [alistInsert, hbq]
      rw [e1, e2]
      exact List.Forall₂.cons hab ih

theorem related_update :
    ∀ (s1 s2 : List (String × JVal)), List.Forall₂ EntryRelated s1 s2 →
      ∀ (b1 b2 : List (String × JVal)), List.Forall₂ EntryRelated b1 b2 →
        List.Forall₂ EntryRelated (alistUpdate b1 s1) (alistUpdate b2 s2) := by
  intro s1 s2 h
  induction h with
  | nil => intro b1 b2 hb; exact hb
  | @cons a b l1 l2 hab htl ih =>
    intro b1 b2 hb
    rw [alistUpdate_cons, alistUpdate_cons]
    have hb1 : b.1 = a.1 := hab.1.symm
    rw [hb1]
    exact ih _ _ (related_insert a.1 a.2 b.2 hab.2 b1 b2 hb)

theorem mask_eq_of_related :
    ∀ (u1 u2 : List (String × JVal)), List.Forall₂ EntryRelated u1 u2 →
      mask_settings u1 = mask_settings u2 := by
  intro u1 u2 h
  induction h with
  | nil => rfl
  | @cons a b l1 l2 hab htl ih =>
    have hmask : (if SECRET_KEYS.contains a.1 then maskSecretVal a.2 else some a.2)
        = (if SECRET_KEYS.contains b.1 then maskSecretVal b.2 else some b.2) := by
      rw [← hab.1]
      have hrel := hab.2
      unfold SecretSuffixRelated at hrel
      by_cases hc : SECRET_KEYS.contains a.1 = true
      · rw [if_pos hc] at hrel
        rw [if_pos hc, if_pos hc]
        rcases hrel with heq | ⟨s1, s2, h1, h2, htake, hl1, hl2⟩
        · rw [heq]
        · rw [h1, h2]
          have hne1 : ¬ s1 = "" := by
            intro he; subst he; exact absurd hl1 (by decide)
          have hne2 : ¬ s2 = "" := by
            intro he; subst he; exact absurd hl2 (by decide)
          simp [maskSecretVal, hne1, hne2, hl1, hl2, htake]
      · rw [if_neg hc] at hrel
        rw [if_neg hc, if_neg hc, hrel]
    show mask_settings (a :: l1) = mask_settings (b :: l2)
    simp only [mask_settings]
    rw [← hmask, ih, hab.1]

/-- C10 counterexample: two stored settings files whose `GITHUB_TOKEN`
values agree on their first 8 characters (they differ only beyond them),
yet the `/api/settings` responses differ: the 8-character token is masked
as `***` while the 9-character one is masked as its 8-character prefix
followed by `...`. -/
theorem C10_counterexample :
    ("abcdefgh" : String).take 8 = ("abcdefghi" : String).take 8 ∧
    ¬ api_settings_get (StoredFile.jdict [("GITHUB_TOKEN", JVal.str "abcdefgh")]) =
        api_settings_get (StoredFile.jdict [("GITHUB_TOKEN", JVal.str "abcdefghi")]) := by
  constructor
  · decide
  · intro h
    have e1 : (api_settings_get (StoredFile.jdict [("GITHUB_TOKEN", JVal.str "abcdefgh")])).map
        (fun l => alistLookup l "GITHUB_TOKEN") = some (some (JVal.str "***")) := by decide
    have e2 : (api_settings_get (StoredFile.jdict [("GITHUB_TOKEN", JVal.str "abcdefghi")])).map
        (fun l => alistLookup l "GITHUB_TOKEN") = some (some (JVal.str "abcdefgh...")) := by decide
    rw [h, e2] at e1
    exact absurd e1 (by decide)

/-- C10 amended: a non-empty secret longer than 8 characters is masked to
its 8-character prefix followed by `...`, a non-empty secret of at most 8
characters is masked to `***` (so a response never reveals more than the
first 8 characters of a secret), and two stored settings dictionaries that
differ only in the suffix of secrets, with both versions of each differing
secret longer than 8 characters, produce identical responses. -/
theorem C10_secret_masking_amended :
    ∀ (s : String) (d1 d2 : List (String × JVal)),
      ¬ s = "" →
      List.Forall₂ EntryRelated d1 d2 →
      ((s.length > 8 → maskSecretVal (JVal.str s) = some (JVal.str (s.take 8 ++ "..."))) ∧
       (s.length ≤ 8 → maskSecretVal (JVal.str s) = some (JVal.str "***")) ∧
       api_settings_get (StoredFile.jdict d1) = api_settings_get (StoredFile.jdict d2)) := by
  intro s d1 d2 hs hrel
  refine ⟨?_, ?_, ?_⟩
  · intro hlen; simp [maskSecretVal, hs, hlen]
  · intro hlen
    have hnot : ¬ s.length > 8 := Nat.not_lt.mpr hlen
    simp [maskSecretVal, hs, hnot]
  · show mask_settings (load_settings (StoredFile.jdict d1)) =
      mask_settings (load_settings (StoredFile.jdict d2))
    apply mask_eq_of_related
    exact related_update d1 d2 hrel SETTINGS_DEFAULTS SETTINGS_DEFAULTS
      (List.forall₂_same.mpr (fun a _ => EntryRelated_refl a))

/-- Witness for the amended C10 at concrete dictionaries whose
`GITHUB_TOKEN` values share the prefix `ghp_1234` and are both longer than
8 characters. -/
theorem C10_secret_masking_amended_witness :
    (("ghp_1234AAAA" : String).length > 8 →
      maskSecretVal (JVal.str "ghp_1234AAAA") = some (JVal.str ("ghp_1234AAAA".take 8 ++ "..."))) ∧
    (("ghp_1234AAAA" : String).length ≤ 8 →
      maskSecretVal (JVal.str "ghp_1234AAAA") = some (JVal.str "***")) ∧
    api_settings_get (StoredFile.jdict [("GITHUB_TOKEN", JVal.str "ghp_1234AAAA")]) =
      api_settings_get (StoredFile.jdict [("GITHUB_TOKEN", JVal.str "ghp_1234BBBB")]) :=
  C10_secret_masking_amended "ghp_1234AAAA"
    [("GITHUB_TOKEN", JVal.str "ghp_1234AAAA")]
    [("GITHUB_TOKEN", JVal.str "ghp_1234BBBB")]
    (by decide)
    (List.Forall₂.cons
      ⟨rfl, by
        unfold SecretSuffixRelated
        rw [if_pos (by decide)]
        exact Or.inr ⟨"ghp_1234AAAA", "ghp_1234BBBB", rfl, rfl, by decide, by decide, by decide⟩⟩
      List.Forall₂.nil)

/-! ## Claim C5: protected-file sync on launch -/

/-- C5: on every launch with an existing repository (repo directory and
`server.py` present), the three protected files are copied from the
immutable bundle over the working tree (all other paths untouched), and the
commit with message `safety-sync: restore protected files from bundle` is
made exactly when the git status of those files is non-empty. -/
theorem C5_safety_sync :
    ∀ (bundle tree : List (String × String)) (statusOut : String) (c1 c2 c3 : String),
      alistLookup bundle "ouroboros/safety.py" = some c1 →
      alistLookup bundle "prompts/SAFETY.md" = some c2 →
      alistLookup bundle "ouroboros/tools/registry.py" = some c3 →
      ∃ r, bootstrap_repo true true bundle tree statusOut = some r ∧
        (∀ p, p ∈ SYNC_PATHS → alistLookup r.tree p = alistLookup bundle p) ∧
        (∀ p, ¬ p ∈ SYNC_PATHS → alistLookup r.tree p = alistLookup tree p) ∧
        (¬ pyStrip statusOut = "" → GitCmd.commitCmd SAFETY_SYNC_MESSAGE ∈ r.gitCmds) ∧
        (pyStrip statusOut = "" → ∀ m, ¬ GitCmd.commitCmd m ∈ r.gitCmds) := by
  intro bundle tree statusOut c1 c2 c3 h1 h2 h3
  refine ⟨_, rfl, ?_, ?_, ?_, ?_⟩
  · intro p hp
    have hsync : sync_core_files bundle tree =
        alistInsert (alistInsert (alistInsert tree "ouroboros/safety.py" c1)
          "prompts/SAFETY.md" c2) "ouroboros/tools/registry.py" c3 := by
      simp only [sync_core_files, SYNC_PATHS, List.foldl_cons, List.foldl_nil, h1, h2, h3]
    show alistLookup (sync_core_files bundle tree) p = alistLookup bundle p
    rw [hsync]
    simp only [SYNC_PATHS, List.mem_cons, List.not_mem_nil, or_false] at hp
    rcases hp with rfl | rfl | rfl
    · rw [alistLookup_insert, if_neg (by decide), alistLookup_insert, if_neg (by decide),
        alistLookup_insert, if_pos rfl, h1]
    · rw [alistLookup_insert, if_neg (by decide), alistLookup_insert, if_pos rfl, h2]
    · rw [alistLookup_insert, if_pos rfl, h3]
  · intro p hp
    have hsync : sync_core_files bundle tree =
        alistInsert (alistInsert (alistInsert tree "ouroboros/safety.py" c1)
          "prompts/SAFETY.md" c2) "ouroboros/tools/registry.py" c3 := by
      simp only [sync_core_files, SYNC_PATHS, List.foldl_cons, List.foldl_nil, h1, h2, h3]
    show alistLookup (sync_core_files bundle tree) p = alistLookup tree p
    rw [hsync]
    simp only [SYNC_PATHS, List.mem_cons, List.not_mem_nil, or_false, not_or] at hp
    rw [alistLookup_insert, if_neg hp.2.2, alistLookup_insert, if_neg hp.2.1,
      alistLookup_insert, if_neg hp.1]
  · intro hst
    show GitCmd.commitCmd SAFETY_SYNC_MESSAGE ∈ commit_synced_files statusOut
    simp [commit_synced_files, hst]
  · intro hst m
    show ¬ GitCmd.commitCmd m ∈ commit_synced_files statusOut
    simp [commit_synced_files, hst, SYNC_PATHS]

/-- Witness for C5 at a concrete bundle, empty tree and non-empty status. -/
theorem C5_safety_sync_witness :
    ∃ r, bootstrap_repo true true
        [("ouroboros/safety.py", "safety"), ("prompts/SAFETY.md", "md"),
         ("ouroboros/tools/registry.py", "registry")]
        [] " M ouroboros/safety.py" = some r ∧
      (∀ p, p ∈ SYNC_PATHS → alistLookup r.tree p =
        alistLookup [("ouroboros/safety.py", "safety"), ("prompts/SAFETY.md", "md"),
          ("ouroboros/tools/registry.py", "registry")] p) ∧
      (∀ p, ¬ p ∈ SYNC_PATHS → alistLookup r.tree p = alistLookup ([] : List (String × String)) p) ∧
      (¬ pyStrip " M ouroboros/safety.py" = "" →
        GitCmd.commitCmd SAFETY_SYNC_MESSAGE ∈ r.gitCmds) ∧
      (pyStrip " M ouroboros/safety.py" = "" → ∀ m, ¬ GitCmd.commitCmd m ∈ r.gitCmds) :=
  C5_safety_sync
    [("ouroboros/safety.py", "safety"), ("prompts/SAFETY.md", "md"),
     ("ouroboros/tools/registry.py", "registry")]
    [] " M ouroboros/safety.py" "safety" "md" "registry" (by decide) (by decide) (by decide)

/-! ## Claims C1 and C9: the repo commit tools -/

/-- C1: for every commit made through `repo_write_commit` and `repo_commit`
with `skip_tests` false (all git steps succeeding, so a commit is created),
a failing pytest gate reverts the commit via `git reset --soft HEAD~1` and
returns the error string — unless this is the third consecutive test
failure, in which case the commit stands (no soft reset), the consecutive
failures counter resets to 0, and the returned string reports the commit as
OK with the TESTS_SKIPPED note; a passing gate resets the counter to 0. -/
theorem C1_pre_commit_test_gate :
    ∀ (env : GitEnv) (path content msg : String) (paths : Option (List String))
      (failures : Nat),
      ¬ pyStrip msg = "" →
      env.checkoutOk = true → env.writeOk = true → env.addOk = true →
      env.commitOk = true → env.pathsOk = true →
      ¬ pyStrip env.statusOut = "" →
      (∀ e, env.testResult = some e →
        (failures + 1 ≥ 3 →
          (repo_write_commit env path content msg false failures).result =
            OK_COMMITTED env.branchDev msg ++ TESTS_SKIPPED_NOTE ∧
          (repo_write_commit env path content msg false failures).failures = 0 ∧
          ¬ ToolEffect.git GitCmd.resetSoftHead1 ∈
              (repo_write_commit env path content msg false failures).effects ∧
          (repo_commit_push env msg paths false failures).result =
            OK_COMMITTED env.branchDev msg ++ TESTS_SKIPPED_NOTE ++
              (if paths.isSome then untracked_warning env.untrackedOut else "") ∧
          (repo_commit_push env msg paths false failures).failures = 0 ∧
          ¬ ToolEffect.git GitCmd.resetSoftHead1 ∈
              (repo_commit_push env msg paths false failures).effects) ∧
        (failures + 1 < 3 →
          (repo_write_commit env path content msg false failures).result =
            TESTS_FAILED_MSG e ∧
          (repo_write_commit env path content msg false failures).failures = failures + 1 ∧
          ToolEffect.git GitCmd.resetSoftHead1 ∈
            (repo_write_commit env path content msg false failures).effects ∧
          (repo_commit_push env msg paths false failures).result = TESTS_FAILED_MSG e ∧
          (repo_commit_push env msg paths false failures).failures = failures + 1 ∧
          ToolEffect.git GitCmd.resetSoftHead1 ∈
            (repo_commit_push env msg paths false failures).effects)) ∧
      (env.testResult = none →
        (repo_write_commit env path content msg false failures).failures = 0 ∧
        (repo_commit_push env msg paths false failures).failures = 0) := by
  intro env path content msg paths failures hmsg hco hw hadd hcommit hpok hst
  constructor
  · intro e hsome
    constructor
    · intro hge
      have hnlt : ¬ failures + 1 < 3 := Nat.not_lt.mpr hge
      refine ⟨?_, ?_, ?_, ?_, ?_, ?_⟩ <;>
        simp [repo_write_commit, repo_commit_push, hmsg, hco, hw, hadd, hcommit, hpok, hst,
          hsome, git_commit_with_tests, hge, hnlt] <;>
        cases paths <;> simp <;> try (split <;> simp)
    · intro hlt
      have hnge : ¬ failures + 1 ≥ 3 := Nat.not_le.mpr hlt
      refine ⟨?_, ?_, ?_, ?_, ?_, ?_⟩ <;>
        simp [repo_write_commit, repo_commit_push, hmsg, hco, hw, hadd, hcommit, hpok, hst,
          hsome, git_commit_with_tests, hnge]
  · intro hnone
    constructor <;>
      simp [repo_write_commit, repo_commit_push, hmsg, hco, hw, hadd, hcommit, hpok, hst,
        hnone, git_commit_with_tests]

/-- Witness for C1: with the counter at 2 a third consecutive failure lets
the commit stand with the TESTS_SKIPPED note and resets the counter; with
the counter at 0 the failing gate returns the error string and the commit
is reverted with `git reset --soft HEAD~1`. -/
theorem C1_pre_commit_test_gate_witness :
    (repo_write_commit
        (GitEnv.mk "ouroboros" true true true true true " M a.py" "" (some "1 failed") "")
        "a.py" "x = 1" "fix tests" false 2).result =
      OK_COMMITTED "ouroboros" "fix tests" ++ TESTS_SKIPPED_NOTE ∧
    (repo_write_commit
        (GitEnv.mk "ouroboros" true true true true true " M a.py" "" (some "1 failed") "")
        "a.py" "x = 1" "fix tests" false 2).failures = 0 ∧
    (repo_commit_push
        (GitEnv.mk "ouroboros" true true true true true " M a.py" "" (some "1 failed") "")
        "fix tests" none false 0).result = TESTS_FAILED_MSG "1 failed" ∧
    ToolEffect.git GitCmd.resetSoftHead1 ∈
      (repo_commit_push
        (GitEnv.mk "ouroboros" true true true true true " M a.py" "" (some "1 failed") "")
        "fix tests" none false 0).effects := by
  have h3 := C1_pre_commit_test_gate
    (GitEnv.mk "ouroboros" true true true true true " M a.py" "" (some "1 failed") "")
    "a.py" "x = 1" "fix tests" none 2 (by decide) rfl rfl rfl rfl rfl (by decide)
  have h0 := C1_pre_commit_test_gate
    (GitEnv.mk "ouroboros" true true true true true " M a.py" "" (some "1 failed") "")
    "a.py" "x = 1" "fix tests" none 0 (by decide) rfl rfl rfl rfl rfl (by decide)
  refine ⟨((h3.1 "1 failed" rfl).1 (by decide)).1, ((h3.1 "1 failed" rfl).1 (by decide)).2.1,
    ((h0.1 "1 failed" rfl).2 (by decide)).2.2.2.1, ((h0.1 "1 failed" rfl).2 (by decide)).2.2.2.2.2⟩

/-- C9: a commit message that is empty or only whitespace makes both repo
commit tools return the exact error string and perform nothing: the effect
trace is empty, so no file write, no git command and no lock acquisition. -/
theorem C9_blank_commit_message :
    ∀ (env : GitEnv) (path content msg : String) (paths : Option (List String))
      (skipTests : Bool) (failures : Nat),
      pyStrip msg = "" →
      repo_write_commit env path content msg skipTests failures =
        { result := EMPTY_MESSAGE_ERROR, failures := failures, effects := [],
          lastPushSucceeded := false } ∧
      repo_commit_push env msg paths skipTests failures =
        { result := EMPTY_MESSAGE_ERROR, failures := failures, effects := [],
          lastPushSucceeded := false } := by
  intro env path content msg paths skipTests failures h
  constructor
  · simp [repo_write_commit, h]
  · simp [repo_commit_push, h]

/-- Witness for C9 at a whitespace-only commit message. -/
theorem C9_blank_commit_message_witness :
    repo_write_commit (GitEnv.mk "ouroboros" true true true true true "" "" none "")
        "a.py" "x = 1" "   " false 0 =
      { result := EMPTY_MESSAGE_ERROR, failures := 0, effects := [],
        lastPushSucceeded := false } ∧
    repo_commit_push (GitEnv.mk "ouroboros" true true true true true "" "" none "")
        "   " none false 0 =
      { result := EMPTY_MESSAGE_ERROR, failures := 0, effects := [],
        lastPushSucceeded := false } :=
  C9_blank_commit_message (GitEnv.mk "ouroboros" true true true true true "" "" none "")
    "a.py" "x = 1" "   " none false 0 (by decide)

/-! ## Claims C2, C3, C6: owner commands in the supervisor loop -/

/-- C2: an owner `/restart` with `safe_restart` succeeding requests the
restart exit (so the process exits with code 42), regenerates the state
file's `session_id` to the fresh value (different from the old one whenever
the fresh id is), and preserves `tg_offset`. -/
theorem C2_owner_soft_restart :
    ∀ (env : SupervisorEnv) (st : SupervisorState) (pending : List QTask),
      env.safeRestartOk = true →
      (handle_owner_message env st pending "/restart").restartRequested = true ∧
      serverExitCode (handle_owner_message env st pending "/restart").restartRequested =
        some 42 ∧
      (handle_owner_message env st pending "/restart").state.sessionId =
        env.freshSessionId ∧
      (¬ env.freshSessionId = st.sessionId →
        ¬ (handle_owner_message env st pending "/restart").state.sessionId = st.sessionId) ∧
      (handle_owner_message env st pending "/restart").state.tgOffset = st.tgOffset := by
  intro env st pending hok
  have h1 : pyStartsWith (pyLower (pyStrip "/restart")) "/panic" = false := by decide
  have h2 : pyStartsWith (pyLower (pyStrip "/restart")) "/restart" = true := by decide
  refine ⟨?_, ?_, ?_, ?_, ?_⟩ <;>
    simp [handle_owner_message, h1, h2, hok, softRestartState, serverExitCode,
      RESTART_EXIT_CODE]

/-- Witness for C2: the spec's scenario S2, a state with `tg_offset = 42`. -/
theorem C2_owner_soft_restart_witness :
    (handle_owner_message (SupervisorEnv.mk true "" "b3f2" "" "" false)
      (SupervisorState.mk "a1d9" 42 false 0 false) [] "/restart").restartRequested = true ∧
    serverExitCode (handle_owner_message (SupervisorEnv.mk true "" "b3f2" "" "" false)
      (SupervisorState.mk "a1d9" 42 false 0 false) [] "/restart").restartRequested = some 42 ∧
    (handle_owner_message (SupervisorEnv.mk true "" "b3f2" "" "" false)
      (SupervisorState.mk "a1d9" 42 false 0 false) [] "/restart").state.sessionId = "b3f2" ∧
    (¬ ("b3f2" : String) = "a1d9" →
      ¬ (handle_owner_message (SupervisorEnv.mk true "" "b3f2" "" "" false)
        (SupervisorState.mk "a1d9" 42 false 0 false) [] "/restart").state.sessionId = "a1d9") ∧
    (handle_owner_message (SupervisorEnv.mk true "" "b3f2" "" "" false)
      (SupervisorState.mk "a1d9" 42 false 0 false) [] "/restart").state.tgOffset = 42 :=
  C2_owner_soft_restart (SupervisorEnv.mk true "" "b3f2" "" "" false)
    (SupervisorState.mk "a1d9" 42 false 0 false) [] rfl

/-- C3: an owner `/panic` sends exactly one outgoing message, which starts
with `🛑`, and hard-exits the agent process with code 99; the launcher
lifecycle loop, on observing exit code 99, runs no further iteration: its
whole remaining trace is the shutdown, with no subsequent start step,
whatever exit codes would have followed and whatever the crash count. -/
theorem C3_panic_full_teardown :
    (∀ (env : SupervisorEnv) (st : SupervisorState) (pending : List QTask),
      (handle_owner_message env st pending "/panic").sent = [PANIC_MESSAGE] ∧
      pyStartsWith PANIC_MESSAGE "🛑" = true ∧
      (handle_owner_message env st pending "/panic").hardExit = some 99) ∧
    (∀ (rest : List Int) (crashes : Nat),
      agent_lifecycle_run (99 :: rest) crashes =
        [LifeEvent.start, LifeEvent.exited 99, LifeEvent.shutdown]) := by
  constructor
  · intro env st pending
    have h1 : pyStartsWith (pyLower (pyStrip "/panic")) "/panic" = true := by decide
    refine ⟨?_, by decide, ?_⟩ <;> simp [handle_owner_message, h1, PANIC_EXIT_CODE]
  · intro rest crashes
    simp [agent_lifecycle_run]

/-- C6: disabling evolution (`off`, `stop` or `0`) clears the evolution
flag and removes exactly the pending tasks of type `evolution`, keeping
every other pending task; any other argument enables the flag and leaves
the pending list untouched. -/
theorem C6_evolve_toggle :
    ∀ (st : SupervisorState) (pending : List QTask) (action : String),
      ((action = "off" ∨ action = "stop" ∨ action = "0") →
        (evolve_command action st pending).1.evolutionModeEnabled = false ∧
        ∀ t, t ∈ (evolve_command action st pending).2 ↔
          (t ∈ pending ∧ ¬ t.taskType = "evolution")) ∧
      (¬ (action = "off" ∨ action = "stop" ∨ action = "0") →
        (evolve_command action st pending).1.evolutionModeEnabled = true ∧
        (evolve_command action st pending).2 = pending) := by
  intro st pending action
  constructor
  · intro h
    have hb : (action == "off" || action == "stop" || action == "0") = true := by
      rcases h with h | h | h <;> simp [h]
    constructor
    · simp [evolve_command, hb]
    · intro t
      simp only [evolve_command, hb, Bool.not_true, Bool.false_eq_true, if_false,
        sort_pending]
      rw [List.mem_mergeSort, List.mem_filter]
      simp [bne]
  · intro h
    push_neg at h
    have hb : (action == "off" || action == "stop" || action == "0") = false := by
      simp [h.1, h.2.1, h.2.2]
    constructor <;> simp [evolve_command, hb]

/-- Witness for C6 at `action = "off"` with one evolution task and one chat
task pending. -/
theorem C6_evolve_toggle_witness :
    (evolve_command "off" (SupervisorState.mk "s" 0 true 2 false)
      [QTask.mk "t1" "evolution" 5 0, QTask.mk "t2" "chat" 0 1]).1.evolutionModeEnabled =
      false ∧
    ∀ t, t ∈ (evolve_command "off" (SupervisorState.mk "s" 0 true 2 false)
      [QTask.mk "t1" "evolution" 5 0, QTask.mk "t2" "chat" 0 1]).2 ↔
      (t ∈ [QTask.mk "t1" "evolution" 5 0, QTask.mk "t2" "chat" 0 1] ∧
        ¬ t.taskType = "evolution") :=
  (C6_evolve_toggle (SupervisorState.mk "s" 0 true 2 false)
    [QTask.mk "t1" "evolution" 5 0, QTask.mk "t2" "chat" 0 1] "off").1
    (Or.inl rfl)

/-! ## Claim C4: supervisor-loop exception handling -/

theorem supervisor_loop_iter_restart (s : SupervisorLoopState) (step : LoopStep) :
    (supervisor_loop_iter s step).restartRequested = s.restartRequested := by
  by_cases ht : s.terminated = true
  · simp [supervisor_loop_iter, ht]
  · cases step
    · simp [supervisor_loop_iter, ht]
    · by_cases hge : s.crashCount + 1 ≥ 3 <;> simp [supervisor_loop_iter, ht, hge]

theorem supervisor_loop_foldl_restart (steps : List LoopStep) :
    ∀ (s : SupervisorLoopState),
      (List.foldl supervisor_loop_iter s steps).restartRequested = s.restartRequested := by
  induction steps with
  | nil => intro s; rfl
  | cons step tl ih =>
    intro s
    rw [List.foldl_cons, ih, supervisor_loop_iter_restart]

/-- C4 counterexample: a run of the supervisor loop whose body raises three
times in a row.  The loop function terminates (the daemon thread returns),
but the restart flag was never set, so the process does not exit with code
42 — `serverExitCode` yields no exit through the restart path, contradicting
the claim that three consecutive crashes exit the process with code 42. -/
theorem C4_counterexample :
    (supervisor_loop_run [LoopStep.crash, LoopStep.crash, LoopStep.crash]).terminated = true ∧
    (supervisor_loop_run [LoopStep.crash, LoopStep.crash, LoopStep.crash]).restartRequested =
      false ∧
    ¬ serverExitCode
        (supervisor_loop_run [LoopStep.crash, LoopStep.crash, LoopStep.crash]).restartRequested =
      some 42 := by
  decide

/-- C4 amended: every exception in the supervisor loop body is caught (the
wrapper is total): a normal iteration resets the consecutive crash counter,
a crash below the third increments it and retries after an exponentially
growing backoff of `min 30 (2 ^ crashes)` seconds, and the third
consecutive crash makes the loop function return — without setting the
restart flag, so the process does not exit with code 42 through the
restart path. -/
theorem C4_crash_retry_amended :
    ∀ (s : SupervisorLoopState) (steps : List LoopStep),
      (s.terminated = false →
        supervisor_loop_iter s LoopStep.ok = { s with crashCount := 0 }) ∧
      (s.terminated = false → s.crashCount + 1 < 3 →
        supervisor_loop_iter s LoopStep.crash =
          { s with crashCount := s.crashCount + 1,
                   backoffs := s.backoffs ++ [min 30 (2 ^ (s.crashCount + 1))] }) ∧
      (s.terminated = false → s.crashCount + 1 ≥ 3 →
        supervisor_loop_iter s LoopStep.crash =
          { s with crashCount := s.crashCount + 1, terminated := true }) ∧
      (supervisor_loop_run steps).restartRequested = false ∧
      serverExitCode (supervisor_loop_run steps).restartRequested = none := by
  intro s steps
  refine ⟨?_, ?_, ?_, ?_, ?_⟩
  · intro ht; simp [supervisor_loop_iter, ht]
  · intro ht hlt
    have hnge : ¬ s.crashCount + 1 ≥ 3 := Nat.not_le.mpr hlt
    simp [supervisor_loop_iter, ht, hnge]
  · intro ht hge
    simp [supervisor_loop_iter, ht, hge]
  · exact supervisor_loop_foldl_restart steps _
  · rw [show (supervisor_loop_run steps).restartRequested = false from
      supervisor_loop_foldl_restart steps _]
    rfl

/-- Witness for the amended C4: a live loop state with one prior crash; the
next crash sleeps `min 30 (2 ^ 2) = 4` seconds, and a three-crash script
ends with the restart flag still clear. -/
theorem C4_crash_retry_amended_witness :
    (supervisor_loop_iter (SupervisorLoopState.mk 1 [2] false false) LoopStep.ok =
      { SupervisorLoopState.mk 1 [2] false false with crashCount := 0 }) ∧
    ((SupervisorLoopState.mk 1 [2] false false).crashCount + 1 < 3 →
      supervisor_loop_iter (SupervisorLoopState.mk 1 [2] false false) LoopStep.crash =
        { SupervisorLoopState.mk 1 [2] false false with
            crashCount := 2, backoffs := [2] ++ [min 30 (2 ^ 2)] }) ∧
    (supervisor_loop_run [LoopStep.crash, LoopStep.crash, LoopStep.crash]).restartRequested =
      false := by
  have h := C4_crash_retry_amended (SupervisorLoopState.mk 1 [2] false false)
    [LoopStep.crash, LoopStep.crash, LoopStep.crash]
  exact ⟨h.1 rfl, fun hlt => h.2.1 rfl hlt, h.2.2.2.1⟩
